import Mathlib

/-!
Verification of the py-ffmpeg repository against its natural-language
specification.  The Python modules `media_info.py` and `encoder.py` are
shallowly embedded below: pure attribute computations become Lean
functions, attribute lookups that can raise `AttributeError` or other
Python exceptions become `Except`-valued functions, and the control flow
of `VideoEncoder.start` / `VideoEncoder.cancel` is modelled as a pure
function from an environment (describing the outcome of every external
step: file existence, probe results, process exit code, delivered
progress ticks and diagnostic lines) to the trace of observable events
(state changes, callback invocations, process spawns, log lines).

Raw ffprobe JSON values are modelled with their parsed numeric types
(ffprobe emits numbers as strings; the string-to-number conversion the
Python code performs with `int(...)` / implicit comparison is absorbed
into the field types, except for `r_frame_rate`, whose string parsing is
embedded faithfully because the claims are about it).  Message strings
keep the French wording of the source, with punctuation simplified.
-/

namespace PyFFmpeg

/-! ## Embedding of Python primitives used by the source -/

/-- Python `int()` truncation of a rational toward zero, as applied by
`int(x)` on a float in `on_progress` and `nb_frames`. -/
def pyTrunc (q : ℚ) : ℤ :=
  if q < 0 then ⌈q⌉ else ⌊q⌋

/-- Digits-only parse of a character list: `some n` when the list is a
nonempty run of decimal digits, `none` otherwise. -/
def parseDigits : List Char → Option ℕ
  | [] => none
  | cs =>
    if cs.all (fun c => c.isDigit) then
      some (cs.foldl (fun acc c => acc * 10 + (c.toNat - 48)) 0)
    else
      none

/-- Python `int(s)` on a trimmed string: an optional sign followed by
decimal digits yields the integer, anything else raises `ValueError`
(modelled as `none`). -/
def pyParseInt (cs : List Char) : Option ℤ :=
  match cs with
  | '-' :: rest => (parseDigits rest).map (fun n => -(n : ℤ))
  | '+' :: rest => (parseDigits rest).map (fun n => (n : ℤ))
  | l => (parseDigits l).map (fun n => (n : ℤ))

/-- Python `str.split("/")`: split a character list on `/`, keeping empty
pieces (so `"".split("/") == [""]`). -/
def splitSlash : List Char → List (List Char)
  | [] => [[]]
  | c :: rest =>
    match splitSlash rest with
    | [] => [[c]]
    | h :: t => if c = '/' then [] :: h :: t else (c :: h) :: t

/-! ## media_info.py — raw stream records

A `RawStream` is one entry of the ffprobe `streams` array, restricted to
the keys the verified properties read.  `Option` encodes key presence in
the JSON object; `tag_rotate` is the `rotate` entry of the `tags` map,
and `side_data_list` keeps, for each side-data object, its `rotation`
entry when present. -/

structure RawStream where
  codec_type : Option String := none
  nb_frames : Option ℤ := none
  r_frame_rate : Option String := none
  width : Option ℕ := none
  height : Option ℕ := none
  bit_rate : Option ℤ := none
  duration : Option ℚ := none
  tag_rotate : Option ℤ := none
  side_data_list : List (Option ℤ) := []
deriving DecidableEq

namespace RawStream

/-- `VideoStreamInfo.width`: `self.get("width", 0)`. -/
def widthV (s : RawStream) : ℕ := s.width.getD 0

/-- `VideoStreamInfo.height`: `self.get("height", 0)`. -/
def heightV (s : RawStream) : ℕ := s.height.getD 0

/-- `VideoStreamInfo.bit_rate`: `int(self.get("bit_rate", 0))`. -/
def bitRateV (s : RawStream) : ℤ := s.bit_rate.getD 0

/-- The `num, den = map(int, rate_str.split("/"))` step of
`VideoStreamInfo.frame_rate`: `some (num, den)` when the split has
exactly two pieces and both parse as Python ints, `none` when that
unpacking raises `ValueError`. -/
def rateParts (s : RawStream) : Option (ℤ × ℤ) :=
  let rate_str := s.r_frame_rate.getD "0/1"
  match (splitSlash rate_str.toList).map pyParseInt with
  | [some num, some den] => some (num, den)
  | _ => none

/-- `VideoStreamInfo.frame_rate`: parse `self.get("r_frame_rate", "0/1")`
as `num/den`; a `ValueError` from `int` or from unpacking a split of
length other than two, or a zero denominator, yields `0.0`. -/
def frame_rate (s : RawStream) : ℚ :=
  match rateParts s with
  | some (num, den) => if den ≠ 0 then (num : ℚ) / (den : ℚ) else 0
  | none => 0

/-- First side-data entry carrying a `rotation` key, as found by the
`for side_data in self.side_data_list` loop (which breaks at the first
hit). -/
def firstSideRot : List (Option ℤ) → Option ℤ
  | [] => none
  | some v :: _ => some v
  | none :: rest => firstSideRot rest

/-- `VideoStreamInfo.rotation`: start from the `rotate` tag when present
(taken as-is), then let the first side-data `rotation` value override it,
reduced modulo 360 (Python `%` on a positive modulus, i.e. `Int.emod`). -/
def rotation (s : RawStream) : ℤ :=
  let r : ℤ := match s.tag_rotate with
    | some t => t
    | none => 0
  match firstSideRot s.side_data_list with
  | some v => v % 360
  | none => r

/-- `VideoStreamInfo.nb_frames`: the reported value when the key is
present; otherwise the fallback branch evaluates
`self.frame_rate > 0 and self.duration > 0` and, when both hold, reads
`self.main_video_stream` — an attribute `VideoStreamInfo` does not have,
so the dynamic lookup raises `AttributeError` (as does `self.duration`
when the key is absent).  `Except.error` carries the raised exception. -/
def nb_framesE (s : RawStream) : Except String ℤ :=
  match s.nb_frames with
  | some n => .ok n
  | none =>
    if frame_rate s > 0 then
      match s.duration with
      | none => .error "AttributeError: no attribute duration"
      | some d =>
        if d > 0 then .error "AttributeError: no attribute main_video_stream"
        else .ok 0
    else .ok 0

/-- Modelled from the spec: the frame-count fallback the claim (and the
code's own comment) describe — the reported value when present, else
`frame_rate * duration` truncated to an integer, and `0` when frame rate
or duration is not positive. -/
def nb_frames_spec (s : RawStream) : ℤ :=
  match s.nb_frames with
  | some n => n
  | none =>
    let d := s.duration.getD 0
    if frame_rate s > 0 ∧ d > 0 then pyTrunc (frame_rate s * d) else 0

end RawStream

/-! ## media_info.py — MediaInfo construction and integrity check -/

/-- `MediaInfo._parse_streams`: the first stream whose `codec_type` is
`video` becomes `main_video_stream`. -/
def mainVideo (streams : List RawStream) : Option RawStream :=
  streams.find? (fun s => s.codec_type = some "video")

/-- `MediaInfo._parse_streams`: the first stream whose `codec_type` is
`audio` becomes `main_audio_stream`. -/
def mainAudio (streams : List RawStream) : Option RawStream :=
  streams.find? (fun s => s.codec_type = some "audio")

/-- The `failure_causes` list accumulated by `MediaInfo._check_integrity`
(message texts abbreviated): one entry when neither main stream exists,
else one entry per missing/zero video field, in source order. -/
def integrityCauses (mv ma : Option RawStream) : List String :=
  match mv, ma with
  | none, none => ["Aucun stream video ou audio principal detecte."]
  | _, _ =>
    match mv with
    | none => []
    | some v =>
      (if v.widthV = 0 then ["Pas d info de largeur video."] else []) ++
      (if v.heightV = 0 then ["Pas d info de hauteur video."] else []) ++
      (if v.frame_rate = 0 then ["Pas d info de frame rate video."] else []) ++
      (if v.bitRateV = 0 then ["Pas d info de bit rate video."] else [])

/-- The fields of `MediaInfo` the verified claims read, as set once by
`MediaInfo.__init__` (which is the only writer of `failed` and
`failure_causes`). -/
structure MediaDescription where
  main_video_stream : Option RawStream
  main_audio_stream : Option RawStream
  failed : Bool
  failure_causes : List String
deriving DecidableEq

/-- `MediaInfo.__init__` followed by `_parse_streams` and
`_check_integrity`: `failed` starts `False` and is set exactly when the
integrity check recorded at least one cause. -/
def mkMediaInfo (streams : List RawStream) : MediaDescription :=
  let mv := mainVideo streams
  let ma := mainAudio streams
  let causes := integrityCauses mv ma
  { main_video_stream := mv
    main_audio_stream := ma
    failed := !causes.isEmpty
    failure_causes := causes }

/-! ## encoder.py — states, progress arithmetic, and the `start()` trace -/

/-- The `EncodingState` enum of `encoder.py`. -/
inductive EncodingState where
  | IDLE
  | PREPARING
  | ENCODING
  | CANCELLING
  | CANCELLED
  | COMPLETED
  | ERROR
deriving DecidableEq

/-- One decoded progress record as read by the `on_progress` handler:
`elapsed` is `(datetime.now() - start_time).seconds`, `time_seconds` is
`progress.time.seconds`, `frame` is `progress.frame`. -/
structure Tick where
  elapsed : ℤ
  time_seconds : ℤ
  frame : ℤ
deriving DecidableEq

/-- The probe-derived facts `on_progress` reads from the ffmpeg context:
`duration` is `self._ffmpeg.duration`; `nb_frames` is `some n` exactly
when `hasattr(self._ffmpeg, "nb_frames")` holds with value `n`. -/
structure ProbeFacts where
  duration : ℚ
  nb_frames : Option ℤ
deriving DecidableEq

/-- `speed = processed / elapsed if elapsed > 0 else 0`. -/
def tickSpeed (t : Tick) : ℚ :=
  if t.elapsed > 0 then (t.time_seconds : ℚ) / (t.elapsed : ℚ) else 0

/-- `remaining = int((self._ffmpeg.duration - processed) / speed) if
speed > 0 else 0` — note the absence of any clamping of negative
values. -/
def tickRemaining (pf : ProbeFacts) (t : Tick) : ℤ :=
  if tickSpeed t > 0 then pyTrunc ((pf.duration - (t.time_seconds : ℚ)) / tickSpeed t) else 0

/-- `percent = min(100, (progress.frame / nb_frames) * 100)` when a
positive `nb_frames` is known, else `0`. -/
def tickPercent (pf : ProbeFacts) (t : Tick) : ℚ :=
  match pf.nb_frames with
  | some n => if n > 0 then min 100 (((t.frame : ℚ) / (n : ℚ)) * 100) else 0
  | none => 0

/-- The pair pushed to `on_progress_callback(percent, remaining)`. -/
def on_progress_tick (pf : ProbeFacts) (t : Tick) : ℚ × ℤ :=
  (tickPercent pf t, tickRemaining pf t)

/-- Observable events of one `start()` attempt: an actual change of
`_current_state`, the spawning `execute()` call, and the invocations of
the started / progress / finished / log callbacks. -/
inductive Event where
  | stateChange (s : EncodingState)
  | exec
  | started
  | progress (percent : ℚ) (eta : ℤ)
  | finished (success : Bool) (msg : String)
  | log (msg : String)
deriving DecidableEq

/-- Which of the optional callbacks the caller registered before
`start()`. -/
structure Callbacks where
  on_finished : Bool
  on_progress : Bool
  on_started : Bool
deriving DecidableEq

/-- Outcome of every external step of one attempt: file existence, the
auto-probe of the input, presence of a video stream, whether `execute()`
raised (`some message`), whether a diagnostic line containing `options:`
was emitted, the progress ticks delivered while the cancellation flag
was unset, the flag value observed after `execute()` returns, the
process exit code, and whether the final re-probe of the output
succeeds. -/
structure RunEnv where
  input_exists : Bool
  probe_ok : Bool
  has_video_stream : Bool
  exec_error : Option String
  options_line : Bool
  ticks : List Tick
  probe_facts : ProbeFacts
  cancelled_after : Bool
  returncode : ℤ
  output_probe_ok : Bool

/-- `VideoEncoder._handle_error`: record the message and invoke the
finished callback with `success=False` when one is registered. -/
def handleError (cb : Callbacks) (msg : String) : List Event :=
  if cb.on_finished then [.finished false msg] else []

/-- Events emitted while `execute()` runs: the spawn itself and — only
when a progress callback was registered, since
`_setup_ffmpeg_callbacks` subscribes both handlers under
`if self.on_progress_callback` — the `options:`-triggered transition to
`ENCODING` with the started callback, and one progress invocation per
delivered tick. -/
def execPhase (cb : Callbacks) (env : RunEnv) : List Event :=
  Event.exec ::
  (if cb.on_progress then
    (if env.options_line then
       Event.stateChange .ENCODING :: (if cb.on_started then [Event.started] else [])
     else []) ++
    env.ticks.map (fun t =>
      Event.progress (tickPercent env.probe_facts t) (tickRemaining env.probe_facts t))
   else [])

/-- `VideoEncoder._handle_processing_result`: classify the attempt once
`execute()` returned normally.  On the success path the output re-probe
is evaluated as the argument of the finished callback, so its failure
raises after `COMPLETED` was already set and is then converted by the
outer handler into a `success=False` notification. -/
def handleProcessingResult (cb : Callbacks) (env : RunEnv) : List Event :=
  if env.cancelled_after then
    Event.stateChange .CANCELLED ::
      (if cb.on_finished then [.finished false "Encodage annule par l utilisateur"] else [])
  else if env.returncode = 0 then
    Event.stateChange .COMPLETED ::
      ((if cb.on_progress then [Event.progress 100 0] else []) ++
       (if cb.on_finished then
          (if env.output_probe_ok then
             [Event.finished true "Encodage termine avec succes !"]
           else
             [Event.finished false "Erreur inattendue lors de l encodage : echec du probe de sortie"])
        else []))
  else
    Event.stateChange .ERROR ::
      (if cb.on_finished then
         [.finished false ("Erreur d encodage (code: " ++ (toString env.returncode ++ ")"))]
       else [])

/-- `VideoEncoder.start()`: reset the flag, enter `PREPARING`, then run
validation, configuration, execution and classification inside the
`try`; every raised exception is caught by one of the three `except`
clauses and funnelled into `_handle_error`.  The function is total: no
exception escapes to the caller. -/
def startEvents (cb : Callbacks) (env : RunEnv) (s0 : EncodingState) : List Event :=
  (if s0 ≠ .PREPARING then [Event.stateChange .PREPARING] else []) ++
  (if !env.input_exists then
     handleError cb "Erreur de validation : Fichier source inexistant"
   else if !env.probe_ok then
     handleError cb "Erreur inattendue lors de l encodage : echec du probe"
   else if !env.has_video_stream then
     handleError cb "Erreur de validation : pas de piste video"
   else
     Event.log "Debut de l encodage avec la commande :" ::
     Event.log "arguments ffmpeg" ::
     execPhase cb env ++
     (match env.exec_error with
      | some m => handleError cb ("Erreur lors de l execution de FFmpeg : " ++ m)
      | none => handleProcessingResult cb env))

/-- The state recorded by an event, when it is a state change. -/
def stateOf : Event → Option EncodingState
  | .stateChange s => some s
  | _ => none

/-- Value of `_current_state` after a trace, starting from `s0`. -/
def finalState (trace : List Event) (s0 : EncodingState) : EncodingState :=
  ((trace.filterMap stateOf).getLast?).getD s0

/-- Recognizer of finished-callback events. -/
def isFinishedEv : Event → Bool
  | .finished _ _ => true
  | _ => false

/-- Number of finished-callback invocations in a trace. -/
def countFinished (trace : List Event) : ℕ :=
  trace.countP isFinishedEv

/-! ## encoder.py — `cancel()` -/

/-- Encoder-and-process situation at the moment `cancel()` is called,
together with the outcome of each fallible external action: graceful
`terminate()`, forceful `kill()`, and `unlink()` of the output file. -/
structure CancelEnv where
  state : EncodingState
  cancelled0 : Bool
  has_ffmpeg : Bool
  has_process : Bool
  process_alive : Bool
  terminate_ok : Bool
  kill_ok : Bool
  output_exists : Bool
  unlink_ok : Bool
deriving DecidableEq

/-- Result of a `cancel()` call that returned normally: the log lines it
emitted and the final `_current_state` and `_cancelled` flag. -/
structure CancelOut where
  logs : List String
  state : EncodingState
  cancelled : Bool
deriving DecidableEq

/-- `VideoEncoder.cancel()`: return silently unless the state is
`ENCODING` or `PREPARING`; otherwise set the flag, enter `CANCELLING`,
and if a live process exists try `terminate()`, falling back to `kill()`
with both failures only logged; the `finally` block then deletes an
existing output file with a bare `unlink()` call — an exception raised
there is modelled as `Except.error` because nothing in the source
catches it. -/
def cancelRun (env : CancelEnv) : Except String CancelOut :=
  if env.state ≠ .ENCODING ∧ env.state ≠ .PREPARING then
    .ok { logs := [], state := env.state, cancelled := env.cancelled0 }
  else
    if env.has_ffmpeg ∧ env.has_process then
      if env.process_alive then
        let lterm :=
          if env.terminate_ok then ["Signal d arret envoye a FFmpeg"]
          else
            "Erreur lors de l arret" ::
            (if env.kill_ok then ["Processus FFmpeg force a s arreter"]
             else ["Impossible d arreter le processus"])
        if env.output_exists then
          if env.unlink_ok then
            .ok { logs := "Annulation de l encodage en cours..." :: lterm ++
                    ["Fichier de sortie supprime"]
                  state := .CANCELLING, cancelled := true }
          else
            .error "unlink raised"
        else
          .ok { logs := "Annulation de l encodage en cours..." :: lterm
                state := .CANCELLING, cancelled := true }
      else
        .ok { logs := [], state := .CANCELLING, cancelled := true }
    else
      .ok { logs := [], state := .CANCELLING, cancelled := true }

/-! ## encoder.py — `update_encoding_params()` -/

/-- The encoder fields read and written by `update_encoding_params`:
the `is_encoding` / `is_cancelling` ingredients (`_ffmpeg` present,
its `_executed` flag, the `_cancelled` flag) and the output option map,
modelled as a finite mapping from keys to optional values. -/
structure ParamsState where
  has_ffmpeg : Bool
  executed : Bool
  cancelled : Bool
  encoding_params : String → Option String

/-- `VideoEncoder.is_encoding`: `bool(self._ffmpeg and self._ffmpeg._executed)`. -/
def is_encoding (s : ParamsState) : Bool :=
  s.has_ffmpeg && s.executed

/-- `VideoEncoder.is_cancelling`: `bool(self._ffmpeg and self._cancelled and self._ffmpeg._executed)`. -/
def is_cancelling (s : ParamsState) : Bool :=
  s.has_ffmpeg && s.cancelled && s.executed

/-- Python `dict.update`: write each `(key, value)` pair of the argument
into the map, in iteration order, leaving other keys untouched. -/
def dictUpdate (old : String → Option String) (new : List (String × String)) :
    String → Option String :=
  new.foldl (fun acc kv => fun k => if k = kv.1 then some kv.2 else acc k) old

/-- `VideoEncoder.update_encoding_params`: raise `VideoSettingError`
while `is_encoding` or `is_cancelling` holds, otherwise merge the new
parameters into `_encoding_params`. -/
def update_encoding_params (s : ParamsState) (new : List (String × String)) :
    Except String ParamsState :=
  if is_encoding s || is_cancelling s then
    .error "Il n est pas possible de changer de parametres pendant un encodage."
  else
    .ok { s with encoding_params := dictUpdate s.encoding_params new }

/-! ## Concrete inputs used by individual claims -/

/-- A stream record without a reported `nb_frames`, with 25 fps and a
10-second duration: the fallback estimate branch of `nb_frames`. -/
def rsC5 : RawStream :=
  { r_frame_rate := some "25/1", duration := some 10 }

/-- A stream record whose only rotation source is a `rotate` tag of 450
degrees. -/
def rsC6 : RawStream :=
  { tag_rotate := some 450 }

/-- A run environment whose input path does not exist; everything else
would succeed. -/
def envC3 : RunEnv :=
  { input_exists := false, probe_ok := true, has_video_stream := true
    exec_error := none, options_line := false, ticks := []
    probe_facts := { duration := 0, nb_frames := none }
    cancelled_after := false, returncode := 0, output_probe_ok := true }

/-- A successful encoding run: input valid, process runs to exit code 0,
an `options:` line and one tick are seen, output re-probe succeeds. -/
def envOk : RunEnv :=
  { input_exists := true, probe_ok := true, has_video_stream := true
    exec_error := none, options_line := true
    ticks := [{ elapsed := 10, time_seconds := 5, frame := 0 }]
    probe_facts := { duration := 50, nb_frames := none }
    cancelled_after := false, returncode := 0, output_probe_ok := true }

/-- A cancellation situation where the process is alive, graceful
termination succeeds, the partial output exists, and deleting it
fails. -/
def cenvC2 : CancelEnv :=
  { state := .ENCODING, cancelled0 := false, has_ffmpeg := true
    has_process := true, process_alive := true, terminate_ok := true
    kill_ok := true, output_exists := true, unlink_ok := false }

/-- A `cancel()` call from the `IDLE` state: the silent no-op path. -/
def cenvNoop : CancelEnv :=
  { state := .IDLE, cancelled0 := false, has_ffmpeg := false
    has_process := false, process_alive := false, terminate_ok := true
    kill_ok := true, output_exists := false, unlink_ok := true }

/-- A `cancel()` call where both graceful termination and the forceful
kill fail, but output deletion succeeds. -/
def cenvKillFail : CancelEnv :=
  { state := .ENCODING, cancelled0 := false, has_ffmpeg := true
    has_process := true, process_alive := true, terminate_ok := false
    kill_ok := false, output_exists := true, unlink_ok := true }

/-- Only the finished callback registered. -/
def cbFinOnly : Callbacks :=
  { on_finished := true, on_progress := false, on_started := false }

/-- Finished and started callbacks registered, but no progress
callback. -/
def cbFinStart : Callbacks :=
  { on_finished := true, on_progress := false, on_started := true }

/-- Encoder parameter fields while a process is executing. -/
def psBusy : ParamsState :=
  { has_ffmpeg := true, executed := true, cancelled := false
    encoding_params := fun _ => none }

/-- Encoder parameter fields while idle. -/
def psIdle : ParamsState :=
  { has_ffmpeg := false, executed := false, cancelled := false
    encoding_params := fun _ => none }

end PyFFmpeg

namespace PyFFmpeg

/-! ## Shared helper lemmas -/

/-- `pyTrunc` of an integer is that integer. -/
theorem pyTrunc_intCast (n : ℤ) : pyTrunc ((n : ℚ)) = n := by
  unfold pyTrunc
  split <;> simp

@[simp] theorem isFinishedEv_stateChange (s : EncodingState) :
    isFinishedEv (.stateChange s) = false := rfl

@[simp] theorem isFinishedEv_exec : isFinishedEv .exec = false := rfl

@[simp] theorem isFinishedEv_started : isFinishedEv .started = false := rfl

@[simp] theorem isFinishedEv_progress (p : ℚ) (e : ℤ) :
    isFinishedEv (.progress p e) = false := rfl

@[simp] theorem isFinishedEv_log (m : String) : isFinishedEv (.log m) = false := rfl

@[simp] theorem isFinishedEv_finished (s : Bool) (m : String) :
    isFinishedEv (.finished s m) = true := rfl

@[simp] theorem stateOf_stateChange (s : EncodingState) :
    stateOf (.stateChange s) = some s := rfl

@[simp] theorem stateOf_exec : stateOf .exec = none := rfl

@[simp] theorem stateOf_started : stateOf .started = none := rfl

@[simp] theorem stateOf_progress (p : ℚ) (e : ℤ) : stateOf (.progress p e) = none := rfl

@[simp] theorem stateOf_finished (s : Bool) (m : String) :
    stateOf (.finished s m) = none := rfl

@[simp] theorem stateOf_log (m : String) : stateOf (.log m) = none := rfl

/-- A string with a nonempty prefix is nonempty. -/
theorem append_ne_empty_left (a b : String) (h : a.length > 0) : a ++ b ≠ "" := by
  intro hab
  have := congrArg String.length hab
  simp [String.length_append] at this
  omega

/-! ## C9 — frame-rate parsing -/

/-- C9: `frame_rate` parses the rational string `num/den`: a well-formed
string with nonzero denominator yields `num/den`, a zero denominator or
an unparseable string yields `0.0` (no exception — the function is
total); in particular `30000/1001` gives a value within `0.01` of
`29.97`, and `0/0` and `abc` give `0.0`. -/
theorem C9_frame_rate_parses_rational :
    (∀ s : RawStream, ∀ n d : ℤ, s.rateParts = some (n, d) → d ≠ 0 →
      s.frame_rate = (n : ℚ) / (d : ℚ))
    ∧ (∀ s : RawStream, ∀ n : ℤ, s.rateParts = some (n, 0) → s.frame_rate = 0)
    ∧ (∀ s : RawStream, s.rateParts = none → s.frame_rate = 0)
    ∧ RawStream.rateParts { r_frame_rate := some "30000/1001" } = some (30000, 1001)
    ∧ RawStream.frame_rate { r_frame_rate := some "30000/1001" } = 30000 / 1001
    ∧ |RawStream.frame_rate { r_frame_rate := some "30000/1001" } - 2997 / 100| < 1 / 100
    ∧ RawStream.frame_rate { r_frame_rate := some "0/0" } = 0
    ∧ RawStream.frame_rate { r_frame_rate := some "abc" } = 0 := by
  refine ⟨?_, ?_, ?_, rfl, rfl, ?_, rfl, rfl⟩
  · intro s n d h hd
    simp [RawStream.frame_rate, h, hd]
  · intro s n h
    simp [RawStream.frame_rate, h]
  · intro s h
    simp [RawStream.frame_rate, h]
  · rw [show RawStream.frame_rate { r_frame_rate := some "30000/1001" } = 30000 / 1001 from rfl,
      abs_sub_lt_iff]
    constructor <;> norm_num

/-- C9 witness: the general clauses applied at `24/1` and at a
malformed string. -/
theorem C9_witness :
    RawStream.frame_rate { r_frame_rate := some "24/1" } = (24 : ℚ) / 1
    ∧ RawStream.frame_rate { r_frame_rate := some "x/y" } = 0 :=
  ⟨C9_frame_rate_parses_rational.1 { r_frame_rate := some "24/1" } 24 1 rfl (by norm_num),
   C9_frame_rate_parses_rational.2.2.1 { r_frame_rate := some "x/y" } rfl⟩

/-! ## C5 — nb_frames fallback -/

/-- C5: the fallback branch of `nb_frames` raises `AttributeError`
instead of computing `frame_rate * duration`: on a stream with no
reported `nb_frames`, 25 fps and a 10-second duration, the attribute
lookup `self.main_video_stream` fails, where the code's own comment
(and the spec) promise the estimate `int(25 * 10) = 250`; the reported
value is returned fine when present. -/
theorem C5_nb_frames_fallback_raises :
    RawStream.nb_framesE rsC5 = .error "AttributeError: no attribute main_video_stream"
    ∧ RawStream.nb_frames_spec rsC5 = 250
    ∧ RawStream.nb_framesE { nb_frames := some 300 } = .ok 300 := by
  have hp : RawStream.rateParts rsC5 = some (25, 1) := rfl
  have hfr : RawStream.frame_rate rsC5 = 25 := by
    norm_num [RawStream.frame_rate, hp]
  have hnf : rsC5.nb_frames = none := rfl
  have hd : rsC5.duration = some 10 := rfl
  refine ⟨?_, ?_, rfl⟩
  · norm_num [RawStream.nb_framesE, hnf, hd, hfr]
  · norm_num [RawStream.nb_frames_spec, hnf, hd, hfr]
    rw [show (250 : ℚ) = ((250 : ℤ) : ℚ) by norm_num, pyTrunc_intCast]

/-! ## C6 — rotation -/

/-- C6 counterexample: a `rotate` tag of 450 degrees with no side-data
is returned as-is, outside `[0, 360)`, refuting the claim that the
rotation value is always normalized into that range. -/
theorem C6_counterexample :
    RawStream.rotation rsC6 = 450 ∧ ¬ RawStream.rotation rsC6 < 360 :=
  ⟨rfl, by decide⟩

/-- C6 amended: rotation comes from the `rotate` tag or from rotation
side-data; the first side-data rotation wins when both are present and
is normalized into `[0, 360)`, while a tag-only rotation is returned
unnormalized; tag `rotate=90` with no side-data yields 90, and
side-data `-90` yields 270, overriding the tag. -/
theorem C6_rotation_amended (s : RawStream) :
    (∀ v : ℤ, RawStream.firstSideRot s.side_data_list = some v →
      RawStream.rotation s = v % 360
        ∧ 0 ≤ RawStream.rotation s ∧ RawStream.rotation s < 360)
    ∧ (RawStream.firstSideRot s.side_data_list = none →
      RawStream.rotation s = s.tag_rotate.getD 0)
    ∧ RawStream.rotation { tag_rotate := some 90 } = 90
    ∧ RawStream.rotation { tag_rotate := some 90, side_data_list := [some (-90)] } = 270 := by
  refine ⟨?_, ?_, rfl, rfl⟩
  · intro v h
    have hr : RawStream.rotation s = v % 360 := by
      simp [RawStream.rotation, h]
    refine ⟨hr, ?_, ?_⟩
    · rw [hr]
      exact Int.emod_nonneg v (by norm_num)
    · rw [hr]
      exact Int.emod_lt_of_pos v (by norm_num)
  · intro h
    cases ht : s.tag_rotate <;> simp [RawStream.rotation, h, ht]

/-- C6 witness: the side-data clause applied at a record whose only
side-data rotation is 450, which is normalized to 90. -/
theorem C6_witness :
    RawStream.rotation { side_data_list := [some 450] } = 450 % 360
      ∧ 0 ≤ RawStream.rotation { side_data_list := [some 450] }
      ∧ RawStream.rotation { side_data_list := [some 450] } < 360 :=
  (C6_rotation_amended { side_data_list := [some 450] }).1 450 rfl

/-! ## C7 — integrity check invariant -/

/-- C7: for every probe report, the constructed description satisfies
`failed = (failure_causes nonempty)`, and `failed` holds exactly when
neither a main video nor a main audio stream exists, or a main video
stream exists and any of its width, height, frame rate or bit rate is
zero or absent.  Both fields are computed once by the constructor
`mkMediaInfo`, which is the embedding's only way to build the record. -/
theorem C7_integrity_invariant (streams : List RawStream) :
    ((mkMediaInfo streams).failed = true ↔ (mkMediaInfo streams).failure_causes ≠ [])
    ∧ ((mkMediaInfo streams).failed = true ↔
        ((mkMediaInfo streams).main_video_stream = none
            ∧ (mkMediaInfo streams).main_audio_stream = none)
        ∨ (∃ v : RawStream, (mkMediaInfo streams).main_video_stream = some v
            ∧ (v.widthV = 0 ∨ v.heightV = 0 ∨ v.frame_rate = 0 ∨ v.bitRateV = 0))) := by
  constructor
  · simp [mkMediaInfo]
  · rcases hmv : mainVideo streams with _ | v <;> rcases hma : mainAudio streams with _ | a
    · simp [mkMediaInfo, integrityCauses, hmv, hma]
    · simp [mkMediaInfo, integrityCauses, hmv, hma]
    · by_cases hw : v.widthV = 0 <;> by_cases hh : v.heightV = 0 <;>
        by_cases hf : v.frame_rate = 0 <;> by_cases hb : v.bitRateV = 0 <;>
        simp [mkMediaInfo, integrityCauses, hmv, hma, hw, hh, hf, hb]
    · by_cases hw : v.widthV = 0 <;> by_cases hh : v.heightV = 0 <;>
        by_cases hf : v.frame_rate = 0 <;> by_cases hb : v.bitRateV = 0 <;>
        simp [mkMediaInfo, integrityCauses, hmv, hma, hw, hh, hf, hb]

/-! ## C4 — progress-tick arithmetic -/

/-- C4 counterexample: the ETA is not clamped below zero.  A tick with
`elapsedSeconds=10`, `processedSeconds=50` against a total duration of
5 seconds gives `speed=5` and `etaSeconds = int((5-50)/5) = -9 < 0`,
refuting the claim that negative values are clamped to 0. -/
theorem C4_counterexample :
    tickRemaining { duration := 5, nb_frames := none }
        { elapsed := 10, time_seconds := 50, frame := 0 } = -9
    ∧ tickRemaining { duration := 5, nb_frames := none }
        { elapsed := 10, time_seconds := 50, frame := 0 } < 0 := by
  have hs : tickSpeed { elapsed := 10, time_seconds := 50, frame := 0 } = 5 := by
    norm_num [tickSpeed]
  have h : tickRemaining { duration := 5, nb_frames := none }
      { elapsed := 10, time_seconds := 50, frame := 0 } = -9 := by
    norm_num [tickRemaining, hs]
    rw [show (-9 : ℚ) = ((-9 : ℤ) : ℚ) by norm_num, pyTrunc_intCast]
  exact ⟨h, by rw [h]; norm_num⟩

/-- C4 amended: per tick, `speed = processed/elapsed` when
`elapsed > 0` else 0; `etaSeconds = int((totalDuration - processed)/speed)`
(truncated toward zero, with no clamping — it can be negative) when
`speed > 0` else 0; `percent = min(100, 100*frame/totalFrames)` when a
positive total frame count is known, else 0; and the example tick
`elapsed=10, processed=5, duration=50` gives `speed=1/2` and
`etaSeconds=90`. -/
theorem C4_progress_amended (pf : ProbeFacts) (t : Tick) :
    (t.elapsed > 0 → tickSpeed t = (t.time_seconds : ℚ) / (t.elapsed : ℚ))
    ∧ (¬ t.elapsed > 0 → tickSpeed t = 0)
    ∧ (tickSpeed t > 0 →
        tickRemaining pf t = pyTrunc ((pf.duration - (t.time_seconds : ℚ)) / tickSpeed t))
    ∧ (¬ tickSpeed t > 0 → tickRemaining pf t = 0)
    ∧ (∀ n : ℤ, pf.nb_frames = some n → n > 0 →
        tickPercent pf t = min 100 (((t.frame : ℚ) / (n : ℚ)) * 100))
    ∧ (∀ n : ℤ, pf.nb_frames = some n → ¬ n > 0 → tickPercent pf t = 0)
    ∧ (pf.nb_frames = none → tickPercent pf t = 0)
    ∧ tickSpeed { elapsed := 10, time_seconds := 5, frame := 0 } = 1 / 2
    ∧ tickRemaining { duration := 50, nb_frames := none }
        { elapsed := 10, time_seconds := 5, frame := 0 } = 90 := by
  have hs : tickSpeed { elapsed := 10, time_seconds := 5, frame := 0 } = 1 / 2 := by
    norm_num [tickSpeed]
  refine ⟨?_, ?_, ?_, ?_, ?_, ?_, ?_, hs, ?_⟩
  · intro h; simp [tickSpeed, h]
  · intro h; simp [tickSpeed, h]
  · intro h; simp [tickRemaining, h]
  · intro h; simp [tickRemaining, h]
  · intro n hn hpos; simp [tickPercent, hn, hpos]
  · intro n hn hpos; simp [tickPercent, hn, hpos]
  · intro h; simp [tickPercent, h]
  · norm_num [tickRemaining, hs]
    rw [show (90 : ℚ) = ((90 : ℤ) : ℚ) by norm_num, pyTrunc_intCast]

/-! ## Helper lemmas for the `start()` trace -/

theorem countP_finished_handleError (cb : Callbacks) (m : String) :
    List.countP isFinishedEv (handleError cb m) = if cb.on_finished then 1 else 0 := by
  cases h : cb.on_finished <;> simp [handleError, h]

theorem countP_finished_execPhase (cb : Callbacks) (env : RunEnv) :
    List.countP isFinishedEv (execPhase cb env) = 0 := by
  cases hp : cb.on_progress <;> cases ho : env.options_line <;>
    cases hs : cb.on_started <;>
    simp [execPhase, hp, ho, hs, List.countP_append, List.countP_map,
      Function.comp_def, List.countP_cons]

theorem countP_finished_handleProcessingResult (cb : Callbacks) (env : RunEnv) :
    List.countP isFinishedEv (handleProcessingResult cb env) =
      if cb.on_finished then 1 else 0 := by
  cases hf : cb.on_finished <;> cases hc : env.cancelled_after <;>
    by_cases hrc : env.returncode = 0 <;> cases hop : env.output_probe_ok <;>
    cases hpg : cb.on_progress <;>
    simp [handleProcessingResult, hf, hc, hrc, hop, hpg, List.countP_append,
      List.countP_cons]

theorem not_finished_mem_execPhase (cb : Callbacks) (env : RunEnv) (b : Bool) (m : String) :
    Event.finished b m ∉ execPhase cb env := by
  cases hp : cb.on_progress <;> cases ho : env.options_line <;>
    cases hs : cb.on_started <;> simp [execPhase, hp, ho, hs]

/-- Any finished event in `handleProcessingResult` carries one of the
three outcome messages, all nonempty. -/
theorem finished_mem_handleProcessingResult_ne_empty (cb : Callbacks) (env : RunEnv)
    (b : Bool) (m : String) (h : Event.finished b m ∈ handleProcessingResult cb env) :
    m ≠ "" := by
  cases hf : cb.on_finished <;> cases hc : env.cancelled_after <;>
    by_cases hrc : env.returncode = 0 <;> cases hop : env.output_probe_ok <;>
    cases hpg : cb.on_progress <;>
    (try simp [handleProcessingResult, hf, hc, hrc, hop, hpg] at h) <;>
    first
      | (obtain ⟨h1, h2⟩ := h; subst h2; decide)
      | (obtain ⟨h1, h2⟩ := h; subst h2; exact append_ne_empty_left _ _ (by decide))

/-! ## C1 — start() is exception-opaque and fires finished exactly once -/

/-- C1: for every combination of callbacks, external outcomes and
initial state, `start()` — which is total here: the model returns a
trace for every environment, reflecting that all three `except` clauses
funnel every raised exception into `_handle_error` — invokes the
finished callback exactly once when one is registered (never zero,
never twice), zero times otherwise, and every `success=False`
notification carries a nonempty message. -/
theorem C1_start_finished_exactly_once (cb : Callbacks) (env : RunEnv)
    (s0 : EncodingState) :
    countFinished (startEvents cb env s0) = (if cb.on_finished then 1 else 0)
    ∧ (∀ b m, Event.finished b m ∈ startEvents cb env s0 → m ≠ "") := by
  constructor
  · rw [startEvents]
    by_cases hs0 : s0 = EncodingState.PREPARING <;>
      cases hie : env.input_exists <;> cases hpok : env.probe_ok <;>
        cases hvs : env.has_video_stream <;>
        rcases hee : env.exec_error with _ | em <;>
        simp [hs0, hie, hpok, hvs, hee, countFinished, List.countP_append,
          List.countP_cons, countP_finished_execPhase, countP_finished_handleError,
          countP_finished_handleProcessingResult]
  · intro b m hm
    rw [startEvents] at hm
    by_cases hs0 : s0 = EncodingState.PREPARING <;>
      cases hf : cb.on_finished <;>
      cases hie : env.input_exists <;> cases hpok : env.probe_ok <;>
        cases hvs : env.has_video_stream <;>
        rcases hee : env.exec_error with _ | em <;>
        (try simp [hs0, hf, hie, hpok, hvs, hee, handleError,
          not_finished_mem_execPhase] at hm) <;>
        first
          | exact finished_mem_handleProcessingResult_ne_empty cb env b m hm
          | (obtain ⟨h1, h2⟩ := hm; subst h2; decide)
          | (obtain ⟨h1, h2⟩ := hm; subst h2; exact append_ne_empty_left _ _ (by decide))

/-- C1 witness: a registered finished callback on a failing-validation
attempt fires exactly once, and its concrete message is nonempty. -/
theorem C1_witness :
    countFinished (startEvents cbFinOnly envC3 .IDLE) = 1
    ∧ "Erreur de validation : Fichier source inexistant" ≠ "" := by
  constructor
  · have h := (C1_start_finished_exactly_once cbFinOnly envC3 .IDLE).1
    simpa using h
  · exact (C1_start_finished_exactly_once cbFinOnly envC3 .IDLE).2
      false "Erreur de validation : Fichier source inexistant" (by decide)

/-! ## C10 — no progress callback, no ENCODING transition -/

theorem hpr_no_encoding (cb : Callbacks) (env : RunEnv) :
    Event.stateChange .ENCODING ∉ handleProcessingResult cb env := by
  cases hf : cb.on_finished <;> cases hc : env.cancelled_after <;>
    by_cases hrc : env.returncode = 0 <;> cases hop : env.output_probe_ok <;>
    cases hpg : cb.on_progress <;>
    simp [handleProcessingResult, hf, hc, hrc, hop, hpg]

theorem hpr_no_started (cb : Callbacks) (env : RunEnv) :
    Event.started ∉ handleProcessingResult cb env := by
  cases hf : cb.on_finished <;> cases hc : env.cancelled_after <;>
    by_cases hrc : env.returncode = 0 <;> cases hop : env.output_probe_ok <;>
    cases hpg : cb.on_progress <;>
    simp [handleProcessingResult, hf, hc, hrc, hop, hpg]

theorem hpr_no_progress (cb : Callbacks) (env : RunEnv) (h : cb.on_progress = false)
    (p : ℚ) (e : ℤ) : Event.progress p e ∉ handleProcessingResult cb env := by
  cases hf : cb.on_finished <;> cases hc : env.cancelled_after <;>
    by_cases hrc : env.returncode = 0 <;> cases hop : env.output_probe_ok <;>
    simp [handleProcessingResult, hf, hc, hrc, hop, h]

/-- C10: when no progress callback is registered, the stderr and
progress handlers are never subscribed, so the `ENCODING` state is never
entered, the started callback never fires, and no progress notification
is ever pushed — for every environment, including successful runs. -/
theorem C10_no_progress_callback_no_encoding (cb : Callbacks) (env : RunEnv)
    (s0 : EncodingState) (h : cb.on_progress = false) :
    Event.stateChange .ENCODING ∉ startEvents cb env s0
    ∧ Event.started ∉ startEvents cb env s0
    ∧ ∀ p e, Event.progress p e ∉ startEvents cb env s0 := by
  have hexec : execPhase cb env = [Event.exec] := by simp [execPhase, h]
  refine ⟨?_, ?_, fun p e => ?_⟩
  · intro hm
    rw [startEvents] at hm
    by_cases hs0 : s0 = EncodingState.PREPARING <;>
      cases hie : env.input_exists <;> cases hpok : env.probe_ok <;>
        cases hvs : env.has_video_stream <;>
        rcases hee : env.exec_error with _ | em <;>
        cases hf : cb.on_finished <;>
        simp [hs0, hie, hpok, hvs, hee, hf, hexec, handleError] at hm <;>
        exact absurd hm (hpr_no_encoding cb env)
  · intro hm
    rw [startEvents] at hm
    by_cases hs0 : s0 = EncodingState.PREPARING <;>
      cases hie : env.input_exists <;> cases hpok : env.probe_ok <;>
        cases hvs : env.has_video_stream <;>
        rcases hee : env.exec_error with _ | em <;>
        cases hf : cb.on_finished <;>
        simp [hs0, hie, hpok, hvs, hee, hf, hexec, handleError] at hm <;>
        exact absurd hm (hpr_no_started cb env)
  · intro hm
    rw [startEvents] at hm
    by_cases hs0 : s0 = EncodingState.PREPARING <;>
      cases hie : env.input_exists <;> cases hpok : env.probe_ok <;>
        cases hvs : env.has_video_stream <;>
        rcases hee : env.exec_error with _ | em <;>
        cases hf : cb.on_finished <;>
        simp [hs0, hie, hpok, hvs, hee, hf, hexec, handleError] at hm <;>
        exact absurd hm (hpr_no_progress cb env h p e)

/-- C10 witness: a fully successful run with no progress callback never
enters `ENCODING` and never fires the started callback. -/
theorem C10_witness :
    Event.stateChange .ENCODING ∉ startEvents cbFinStart envOk .IDLE
    ∧ Event.started ∉ startEvents cbFinStart envOk .IDLE := by
  have h := C10_no_progress_callback_no_encoding cbFinStart envOk .IDLE rfl
  exact ⟨h.1, h.2.1⟩

/-! ## C3 — missing input path -/

/-- C3 counterexample: with a registered finished callback and a missing
input file, the attempt ends with the finished callback fired
(`success=False`) but the final state is `PREPARING`, not `ERROR` —
`_handle_error` records the message without entering the `ERROR`
state. -/
theorem C3_counterexample :
    startEvents cbFinOnly envC3 .IDLE =
      [Event.stateChange .PREPARING,
       Event.finished false "Erreur de validation : Fichier source inexistant"]
    ∧ finalState (startEvents cbFinOnly envC3 .IDLE) .IDLE = .PREPARING
    ∧ finalState (startEvents cbFinOnly envC3 .IDLE) .IDLE ≠ .ERROR := by
  refine ⟨by decide, by decide, by decide⟩

/-- C3 amended: a nonexistent input path makes `start()` capture the
`ValidationException` (nothing is raised to the caller), spawn no
process, invoke the finished callback with `success=False` when one is
registered — but the attempt ends still in the `PREPARING` state: the
`ERROR` state is never entered on this path. -/
theorem C3_validation_amended (cb : Callbacks) (env : RunEnv) (s0 : EncodingState)
    (h : env.input_exists = false) :
    Event.exec ∉ startEvents cb env s0
    ∧ (cb.on_finished = true →
        Event.finished false "Erreur de validation : Fichier source inexistant"
          ∈ startEvents cb env s0)
    ∧ finalState (startEvents cb env s0) s0 = .PREPARING
    ∧ Event.stateChange .ERROR ∉ startEvents cb env s0 := by
  by_cases hs0 : s0 = EncodingState.PREPARING <;> cases hf : cb.on_finished <;>
    refine ⟨?_, ?_, ?_, ?_⟩ <;>
    simp [startEvents, handleError, finalState, h, hs0, hf]

/-- C3 witness: the amended statement at a concrete missing-input
environment. -/
theorem C3_witness :
    Event.exec ∉ startEvents cbFinOnly envC3 .IDLE
    ∧ Event.finished false "Erreur de validation : Fichier source inexistant"
        ∈ startEvents cbFinOnly envC3 .IDLE
    ∧ finalState (startEvents cbFinOnly envC3 .IDLE) .IDLE = .PREPARING := by
  have h := C3_validation_amended cbFinOnly envC3 .IDLE rfl
  exact ⟨h.1, h.2.1 rfl, h.2.2.1⟩

/-! ## C2 — cancel() -/

/-- C2 counterexample: in state `ENCODING` with a live process, a
successful graceful termination and an existing output file whose
deletion fails, `cancel()` propagates the deletion exception to its
caller — the bare `unlink()` in the `finally` block is not guarded, so
the failure is neither caught nor logged. -/
theorem C2_counterexample :
    cancelRun cenvC2 = .error "unlink raised" := rfl

/-- C2 amended: `cancel()` is a silent no-op unless the state is
`Preparing` or `Encoding`; failures of graceful termination fall back
to a forceful kill and kill failures are only logged; but a failure to
delete the partially-written output file is not caught: it propagates
to the caller.  `cancel()` returns normally whenever the deletion step
does not fail (in particular whenever no output file exists). -/
theorem C2_cancel_amended (env : CancelEnv) :
    (env.state ≠ .ENCODING ∧ env.state ≠ .PREPARING →
      cancelRun env = .ok { logs := [], state := env.state, cancelled := env.cancelled0 })
    ∧ (env.unlink_ok = true → ∃ out, cancelRun env = .ok out)
    ∧ (env.output_exists = false → ∃ out, cancelRun env = .ok out)
    ∧ ((env.state = .ENCODING ∨ env.state = .PREPARING) → env.has_ffmpeg = true →
        env.has_process = true → env.process_alive = true → env.terminate_ok = false →
        env.kill_ok = false → env.unlink_ok = true →
        ∃ out, cancelRun env = .ok out
          ∧ "Erreur lors de l arret" ∈ out.logs
          ∧ "Impossible d arreter le processus" ∈ out.logs) := by
  refine ⟨?_, ?_, ?_, ?_⟩
  · intro hst
    rw [cancelRun, if_pos hst]
  · intro hu
    rw [cancelRun]
    split_ifs <;> exact ⟨_, rfl⟩
  · intro ho
    rw [cancelRun]
    split_ifs <;> first | exact ⟨_, rfl⟩ | simp_all
  · intro h1 h2 h3 h4 h5 h6 h7
    have hcond : ¬(env.state ≠ .ENCODING ∧ env.state ≠ .PREPARING) := by
      rcases h1 with h | h <;> simp [h]
    cases ho : env.output_exists
    · have hrun : cancelRun env = .ok { logs := ["Annulation de l encodage en cours...", "Erreur lors de l arret", "Impossible d arreter le processus"], state := .CANCELLING, cancelled := true } := by
        simp [cancelRun, hcond, h2, h3, h4, h5, h6, h7, ho]
      exact ⟨_, hrun, by simp, by simp⟩
    · have hrun : cancelRun env = .ok { logs := ["Annulation de l encodage en cours...", "Erreur lors de l arret", "Impossible d arreter le processus", "Fichier de sortie supprime"], state := .CANCELLING, cancelled := true } := by
        simp [cancelRun, hcond, h2, h3, h4, h5, h6, h7, ho]
      exact ⟨_, hrun, by simp, by simp⟩

/-- C2 witness: the amended clauses at concrete environments — a no-op
call from `IDLE`, and a kill-failure call that still returns normally
with both failures logged. -/
theorem C2_witness :
    cancelRun cenvNoop = .ok { logs := [], state := .IDLE, cancelled := false }
    ∧ (cancelRun cenvKillFail).isOk = true := by
  constructor
  · exact (C2_cancel_amended cenvNoop).1 (by simp [cenvNoop])
  · obtain ⟨out, hok, -, -⟩ := (C2_cancel_amended cenvKillFail).2.2.2
      (Or.inl rfl) rfl rfl rfl rfl rfl rfl
    simp [hok, Except.isOk, Except.toBool]

/-! ## C8 — update_encoding_params -/

theorem dictUpdate_lookup_not_mem (old : String → Option String)
    (new : List (String × String)) (k : String) (h : k ∉ new.map Prod.fst) :
    dictUpdate old new k = old k := by
  induction new generalizing old with
  | nil => rfl
  | cons kv rest ih =>
    simp only [List.map_cons, List.mem_cons] at h
    push_neg at h
    have step : dictUpdate old (kv :: rest) =
        dictUpdate (fun k' => if k' = kv.1 then some kv.2 else old k') rest := rfl
    rw [step, ih _ h.2]
    simp [h.1]

theorem dictUpdate_lookup_mem (old : String → Option String)
    (new : List (String × String)) (k : String) (v : String)
    (hnd : (new.map Prod.fst).Nodup) (h : (k, v) ∈ new) :
    dictUpdate old new k = some v := by
  induction new generalizing old with
  | nil => cases h
  | cons kv rest ih =>
    have step : dictUpdate old (kv :: rest) =
        dictUpdate (fun k' => if k' = kv.1 then some kv.2 else old k') rest := rfl
    rw [step]
    have hnd' : kv.1 ∉ rest.map Prod.fst ∧ (rest.map Prod.fst).Nodup := by
      rw [List.map_cons, List.nodup_cons] at hnd
      exact hnd
    rcases List.mem_cons.mp h with heq | hmem
    · have hkv : kv = (k, v) := heq.symm
      subst hkv
      rw [dictUpdate_lookup_not_mem _ _ _ (by simpa using hnd'.1)]
      simp
    · exact ih _ hnd'.2 hmem

/-- C8: `update_encoding_params` raises `SettingError` exactly when
`is_encoding` or `is_cancelling` holds (the source's meaning of
"currently Encoding or Cancelling": a process context exists and is
executing), leaving the option map untouched (the error carries no new
state); otherwise it merges the new parameters into the map, leaving
every key not present in the new parameters unchanged and setting every
key of the (duplicate-free) new parameters to its new value. -/
theorem C8_update_params_guard (s : ParamsState) (new : List (String × String)) :
    ((is_encoding s = true ∨ is_cancelling s = true) →
      update_encoding_params s new =
        .error "Il n est pas possible de changer de parametres pendant un encodage.")
    ∧ (is_encoding s = false → is_cancelling s = false →
      ∃ s', update_encoding_params s new = .ok s'
        ∧ (∀ k, k ∉ new.map Prod.fst → s'.encoding_params k = s.encoding_params k)
        ∧ ((new.map Prod.fst).Nodup →
            ∀ k v, (k, v) ∈ new → s'.encoding_params k = some v)) := by
  constructor
  · intro h
    have hb : (is_encoding s || is_cancelling s) = true := by
      rcases h with h | h <;> simp [h]
    simp [update_encoding_params, hb]
  · intro h1 h2
    have hb : (is_encoding s || is_cancelling s) = false := by simp [h1, h2]
    refine ⟨{ s with encoding_params := dictUpdate s.encoding_params new }, ?_, ?_, ?_⟩
    · simp [update_encoding_params, hb]
    · intro k hk
      exact dictUpdate_lookup_not_mem _ _ _ hk
    · intro hnd k v hkv
      exact dictUpdate_lookup_mem _ _ _ _ hnd hkv

/-- C8 witness: a rejected update while a process is executing, and an
accepted update while idle. -/
theorem C8_witness :
    update_encoding_params psBusy [("crf", "18")] =
      .error "Il n est pas possible de changer de parametres pendant un encodage."
    ∧ (update_encoding_params psIdle [("preset", "fast")]).isOk = true := by
  constructor
  · exact (C8_update_params_guard psBusy _).1 (Or.inl rfl)
  · obtain ⟨s', hok, -, -⟩ := (C8_update_params_guard psIdle [("preset", "fast")]).2 rfl rfl
    simp [hok, Except.isOk, Except.toBool]

/-- C4 witness: the speed and ETA clauses applied at the spec's example
tick. -/
theorem C4_witness :
    tickSpeed { elapsed := 10, time_seconds := 5, frame := 0 } = (5 : ℚ) / 10
    ∧ tickPercent { duration := 50, nb_frames := none }
        { elapsed := 10, time_seconds := 5, frame := 0 } = 0 :=
  ⟨(C4_progress_amended { duration := 50, nb_frames := none }
      { elapsed := 10, time_seconds := 5, frame := 0 }).1 (by norm_num),
   (C4_progress_amended { duration := 50, nb_frames := none }
      { elapsed := 10, time_seconds := 5, frame := 0 }).2.2.2.2.2.2.1 rfl⟩

end PyFFmpeg
